import Mathlib

/-!
Shallow embedding of the binance-bot trading core.

The embedding covers, faithfully to the TypeScript source:
- `src/services/technicalAnalysisService.ts` (indicator engine + signal decision),
- `src/services/advancedTradingService.ts` (execution state machine + position
  monitor, with the exchange modelled as an environment of injected responses),
- the scheduler wiring of `AdvancedTradingBot.startScheduledTrading`
  (two concurrent strategy invocations modelled as a small-step interleaving).

Numbers are rationals; JavaScript falsy fallbacks (`x || d`) are modelled
explicitly where the source relies on them.
-/

set_option maxRecDepth 40000

namespace BinanceBot

/-! ## Data model (technicalAnalysisService.ts) -/

/-- The `action` field of a `TradingSignal` in the source
(`'LONG' | 'SHORT' | 'NO_SIGNAL'`). -/
inductive Action where
  | LONG
  | SHORT
  | NO_SIGNAL
  deriving DecidableEq

/-- `TechnicalData` from technicalAnalysisService.ts. -/
structure TechnicalData where
  ema7 : ℚ
  ema100 : ℚ
  ema200 : ℚ
  rsi : ℚ
  currentPrice : ℚ
  deriving DecidableEq

/-- `TradingSignal` from technicalAnalysisService.ts. -/
structure TradingSignal where
  action : Action
  leverage : ℚ
  confidence : ℚ
  data : TechnicalData
  deriving DecidableEq

/-! ## Indicator engine

The source calls `EMA.calculate` and `RSI.calculate` from the external
`technicalindicators` npm package (not part of this repository).  They are
modelled here by the textbook formulas that package implements: EMA seeded
with the simple moving average of the first `period` values, multiplier
`2/(period+1)`; RSI(14) with Wilder smoothing of average gain/loss. -/

/-- Simple moving average of a list (sum divided by length). -/
def sma (l : List ℚ) : ℚ := l.sum / (l.length : ℚ)

/-- The EMA recurrence applied along the remaining values:
`ema := (v - ema) * k + ema` for each new value `v`, written with a single
occurrence of the accumulator (`v * k + ema * (1 - k)`, the same rational) so
that evaluation by reduction stays linear. -/
def emaSteps (k : ℚ) : ℚ → List ℚ → List ℚ
  | _, [] => []
  | prev, v :: vs =>
      let e := v * k + prev * (1 - k)
      e :: emaSteps k e vs

/-- Model of `EMA.calculate {period, values}`: first output is the SMA of the
first `period` values, then the EMA recurrence over the rest.  Empty output
when fewer than `period` values are supplied. -/
def emaCalculate (period : Nat) (values : List ℚ) : List ℚ :=
  if values.length < period ∨ period = 0 then []
  else
    let seed := sma (values.take period)
    seed :: emaSteps (2 / ((period : ℚ) + 1)) seed (values.drop period)

/-- RSI value from a smoothed average gain and average loss,
`100 - 100 / (1 + gain/loss)`.  A zero average loss gives RSI 100 in
JavaScript (division by zero yields Infinity); when both averages are zero the
JavaScript result is NaN, which the `|| 50` fallback at the single read site
turns into 50, so that case is folded to 50 here. -/
def rsiOf (g l : ℚ) : ℚ :=
  if l = 0 then (if g = 0 then 50 else 100)
  else 100 - 100 / (1 + g / l)

/-- Wilder smoothing steps of RSI over the remaining price changes. -/
def rsiSteps (period : Nat) : ℚ → ℚ → List ℚ → List ℚ
  | _, _, [] => []
  | g, l, c :: cs =>
      let g2 := (g * ((period : ℚ) - 1) + max c 0) / (period : ℚ)
      let l2 := (l * ((period : ℚ) - 1) + max (-c) 0) / (period : ℚ)
      rsiOf g2 l2 :: rsiSteps period g2 l2 cs

/-- Model of `RSI.calculate {period, values}` (Wilder RSI): seed averages over
the first `period` consecutive changes, then Wilder smoothing. -/
def rsiCalculate (period : Nat) (values : List ℚ) : List ℚ :=
  let changes := (values.zip values.tail).map (fun p => p.2 - p.1)
  if changes.length < period ∨ period = 0 then []
  else
    let seedG := ((changes.take period).map (fun c => max c 0)).sum / (period : ℚ)
    let seedL := ((changes.take period).map (fun c => max (-c) 0)).sum / (period : ℚ)
    rsiOf seedG seedL :: rsiSteps period seedG seedL (changes.drop period)

/-- JavaScript `x || d` applied to an optional last list element: the default
is used when the element is missing (undefined) or equal to 0 (falsy). -/
def jsOr (x : Option ℚ) (d : ℚ) : ℚ :=
  match x with
  | none => d
  | some v => if v = 0 then d else v

/-- `calculateIndicators` from technicalAnalysisService.ts, taking the close
prices already extracted from the candle array. -/
def calculateIndicators (closePrices : List ℚ) : TechnicalData :=
  { ema7 := jsOr (emaCalculate 7 closePrices).getLast? 0
    ema100 := jsOr (emaCalculate 100 closePrices).getLast? 0
    ema200 := jsOr (emaCalculate 200 closePrices).getLast? 0
    rsi := jsOr (rsiCalculate 14 closePrices).getLast? 50
    currentPrice := jsOr closePrices.getLast? 0 }

/-! ## Signal decision engine -/

/-- `isLongSignal` from technicalAnalysisService.ts: EMA alignment
`price > EMA7 > EMA100 > EMA200`, price within 0.3% of EMA7, RSI in [30,50]. -/
def isLongSignal (d : TechnicalData) : Bool :=
  if ¬(d.currentPrice > d.ema7 ∧ d.ema7 > d.ema100 ∧ d.ema100 > d.ema200) then false
  else if |(d.currentPrice - d.ema7) / d.ema7| * 100 > 3 / 10 then false
  else if d.rsi < 30 ∨ d.rsi > 50 then false
  else true

/-- `isShortSignal` from technicalAnalysisService.ts: EMA alignment
`price < EMA7 < EMA100 < EMA200`, price within 0.3% of EMA7, RSI in [50,70]. -/
def isShortSignal (d : TechnicalData) : Bool :=
  if ¬(d.currentPrice < d.ema7 ∧ d.ema7 < d.ema100 ∧ d.ema100 < d.ema200) then false
  else if |(d.currentPrice - d.ema7) / d.ema7| * 100 > 3 / 10 then false
  else if d.rsi < 50 ∨ d.rsi > 70 then false
  else true

/-- `determineLeverage` from technicalAnalysisService.ts.  The source declares
default arguments `baseLeverage = 5`, `highLeverage = 10`; both call sites use
the defaults, passed explicitly here. -/
def determineLeverage (rsi : ℚ) (isLong : Bool) (baseLeverage highLeverage : ℚ) : ℚ :=
  if isLong ∧ rsi < 35 then highLeverage
  else if ¬isLong ∧ rsi > 65 then highLeverage
  else baseLeverage

/-- `calculateConfidence` from technicalAnalysisService.ts. -/
def calculateConfidence (d : TechnicalData) (action : Action) : ℚ :=
  let emaSpread :=
    if action = Action.LONG then (d.ema7 - d.ema200) / d.ema200 * 100
    else (d.ema200 - d.ema7) / d.ema200 * 100
  let c1 := min (emaSpread * 10) 30
  let c2 := if action = Action.LONG then c1 + (50 - d.rsi) * 2 else c1 + (d.rsi - 50) * 2
  let priceDistance := |(d.currentPrice - d.ema7) / d.ema7| * 100
  let c3 := c2 + max 0 ((3 / 10 - priceDistance) * 100)
  min (max c3 0) 100

/-- The neutral fallback `TechnicalData` used by `generateTradingSignal` when
fewer than 200 candles are available (and on fetch errors). -/
def neutralData : TechnicalData :=
  { ema7 := 0, ema100 := 0, ema200 := 0, rsi := 50, currentPrice := 0 }

/-- The decision part of `generateTradingSignal` (lines after the indicators
are computed): long check first, then short, else NO_SIGNAL. -/
def signalFromData (data : TechnicalData) : TradingSignal :=
  if isLongSignal data then
    { action := Action.LONG
      leverage := determineLeverage data.rsi true 5 10
      confidence := calculateConfidence data Action.LONG
      data := data }
  else if isShortSignal data then
    { action := Action.SHORT
      leverage := determineLeverage data.rsi false 5 10
      confidence := calculateConfidence data Action.SHORT
      data := data }
  else
    { action := Action.NO_SIGNAL, leverage := 5, confidence := 0, data := data }

/-- `generateTradingSignal` from technicalAnalysisService.ts, as a function of
the close prices of the candles returned by the exchange (`fetchCandles`
returns `[]` on a fetch error, which lands in the insufficient-data branch,
matching the catch branch of the source which returns the same signal). -/
def generateTradingSignal (closePrices : List ℚ) : TradingSignal :=
  if closePrices.length < 200 then
    { action := Action.NO_SIGNAL, leverage := 5, confidence := 0, data := neutralData }
  else
    signalFromData (calculateIndicators closePrices)

/-! ## Lemmas about the signal decision engine -/

/-- The confidence score is clamped to [0,100] by construction. -/
theorem calculateConfidence_bounds (d : TechnicalData) (a : Action) :
    0 ≤ calculateConfidence d a ∧ calculateConfidence d a ≤ 100 := by
  unfold calculateConfidence
  exact ⟨le_min (le_max_right _ _) (by norm_num), min_le_right _ _⟩

/-- The long check passes under alignment, 0.3% precision and RSI in [30,50]. -/
theorem isLongSignal_of_conditions (d : TechnicalData)
    (h1 : d.currentPrice > d.ema7) (h2 : d.ema7 > d.ema100) (h3 : d.ema100 > d.ema200)
    (h4 : |(d.currentPrice - d.ema7) / d.ema7| ≤ 3 / 1000)
    (h5 : 30 ≤ d.rsi) (h6 : d.rsi ≤ 50) :
    isLongSignal d = true := by
  have hA : ¬¬(d.currentPrice > d.ema7 ∧ d.ema7 > d.ema100 ∧ d.ema100 > d.ema200) :=
    not_not_intro ⟨h1, h2, h3⟩
  have hB : ¬(|(d.currentPrice - d.ema7) / d.ema7| * 100 > 3 / 10) := by
    have h100 := mul_le_mul_of_nonneg_right h4 (by norm_num : (0 : ℚ) ≤ 100)
    push_neg
    linarith
  have hC : ¬(d.rsi < 30 ∨ d.rsi > 50) := by
    push_neg
    exact ⟨h5, h6⟩
  unfold isLongSignal
  rw [if_neg hA, if_neg hB, if_neg hC]

/-- The short check passes under reversed alignment, precision and RSI in [50,70]. -/
theorem isShortSignal_of_conditions (d : TechnicalData)
    (h1 : d.currentPrice < d.ema7) (h2 : d.ema7 < d.ema100) (h3 : d.ema100 < d.ema200)
    (h4 : |(d.currentPrice - d.ema7) / d.ema7| ≤ 3 / 1000)
    (h5 : 50 ≤ d.rsi) (h6 : d.rsi ≤ 70) :
    isShortSignal d = true := by
  have hA : ¬¬(d.currentPrice < d.ema7 ∧ d.ema7 < d.ema100 ∧ d.ema100 < d.ema200) :=
    not_not_intro ⟨h1, h2, h3⟩
  have hB : ¬(|(d.currentPrice - d.ema7) / d.ema7| * 100 > 3 / 10) := by
    have h100 := mul_le_mul_of_nonneg_right h4 (by norm_num : (0 : ℚ) ≤ 100)
    push_neg
    linarith
  have hC : ¬(d.rsi < 50 ∨ d.rsi > 70) := by
    push_neg
    exact ⟨h5, h6⟩
  unfold isShortSignal
  rw [if_neg hA, if_neg hB, if_neg hC]

/-- The long check fails whenever the price is below EMA7 (alignment fails). -/
theorem isLongSignal_eq_false_of_lt (d : TechnicalData) (h : d.currentPrice < d.ema7) :
    isLongSignal d = false := by
  have hA : ¬(d.currentPrice > d.ema7 ∧ d.ema7 > d.ema100 ∧ d.ema100 > d.ema200) :=
    fun hc => absurd hc.1 (not_lt.mpr h.le)
  unfold isLongSignal
  rw [if_pos hA]

/-- Claim C5: for every candle sequence with fewer than 200 samples the signal
generator returns NO_SIGNAL with the neutral fallback snapshot (momentum 50,
trends 0); the insufficient-data case is a regular return, never an error. -/
theorem claim_C5_insufficient_data (closePrices : List ℚ)
    (h : closePrices.length < 200) :
    generateTradingSignal closePrices =
      { action := Action.NO_SIGNAL, leverage := 5, confidence := 0, data := neutralData } := by
  unfold generateTradingSignal
  rw [if_pos h]

/-- Witness for C5 at the empty candle list. -/
theorem claim_C5_witness :
    ([] : List ℚ).length < 200 ∧
      generateTradingSignal [] =
        { action := Action.NO_SIGNAL, leverage := 5, confidence := 0, data := neutralData } :=
  ⟨by decide, claim_C5_insufficient_data [] (by decide)⟩

/-- Claim C6: a snapshot with long alignment, |price − EMA7|/EMA7 ≤ 0.003 and
momentum in [30,50] yields action LONG with confidence in [0,100]; the
symmetric snapshot (reversed inequalities, momentum in [50,70]) yields SHORT
with confidence in [0,100]. -/
theorem claim_C6_qualifying_snapshots (d : TechnicalData) :
    (d.currentPrice > d.ema7 ∧ d.ema7 > d.ema100 ∧ d.ema100 > d.ema200 ∧
        |(d.currentPrice - d.ema7) / d.ema7| ≤ 3 / 1000 ∧ 30 ≤ d.rsi ∧ d.rsi ≤ 50 →
      (signalFromData d).action = Action.LONG ∧
        0 ≤ (signalFromData d).confidence ∧ (signalFromData d).confidence ≤ 100) ∧
    (d.currentPrice < d.ema7 ∧ d.ema7 < d.ema100 ∧ d.ema100 < d.ema200 ∧
        |(d.currentPrice - d.ema7) / d.ema7| ≤ 3 / 1000 ∧ 50 ≤ d.rsi ∧ d.rsi ≤ 70 →
      (signalFromData d).action = Action.SHORT ∧
        0 ≤ (signalFromData d).confidence ∧ (signalFromData d).confidence ≤ 100) := by
  constructor
  · rintro ⟨h1, h2, h3, h4, h5, h6⟩
    have hL := isLongSignal_of_conditions d h1 h2 h3 h4 h5 h6
    simp only [signalFromData, hL, if_true]
    exact ⟨trivial, (calculateConfidence_bounds d Action.LONG).1,
      (calculateConfidence_bounds d Action.LONG).2⟩
  · rintro ⟨h1, h2, h3, h4, h5, h6⟩
    have hLf := isLongSignal_eq_false_of_lt d h1
    have hS := isShortSignal_of_conditions d h1 h2 h3 h4 h5 h6
    simp only [signalFromData, hLf, hS, if_true, Bool.false_eq_true, if_false]
    exact ⟨trivial, (calculateConfidence_bounds d Action.SHORT).1,
      (calculateConfidence_bounds d Action.SHORT).2⟩

/-- Witness for C6: the spec scenario snapshot price 42000, EMA7 41980,
EMA100 41500, EMA200 41000, momentum 45, and its short mirror. -/
theorem claim_C6_witness :
    (signalFromData ⟨41980, 41500, 41000, 45, 42000⟩).action = Action.LONG ∧
    (signalFromData ⟨41020, 41500, 42000, 60, 41000⟩).action = Action.SHORT :=
  ⟨((claim_C6_qualifying_snapshots ⟨41980, 41500, 41000, 45, 42000⟩).1
      (by refine ⟨?_, ?_, ?_, ?_, ?_, ?_⟩ <;> with_unfolding_all decide)).1,
   ((claim_C6_qualifying_snapshots ⟨41020, 41500, 42000, 60, 41000⟩).2
      (by refine ⟨?_, ?_, ?_, ?_, ?_, ?_⟩ <;> with_unfolding_all decide)).1⟩

/-- Claim C7: within qualifying signals, a LONG with momentum < 35 gets the
high tier (10x) and a LONG with momentum ≥ 35 the base tier (5x); a SHORT with
momentum > 65 gets the high tier and a SHORT with momentum ≤ 65 the base tier. -/
theorem claim_C7_leverage_tiers (d : TechnicalData) :
    (d.currentPrice > d.ema7 ∧ d.ema7 > d.ema100 ∧ d.ema100 > d.ema200 ∧
        |(d.currentPrice - d.ema7) / d.ema7| ≤ 3 / 1000 ∧ 30 ≤ d.rsi ∧ d.rsi ≤ 50 →
      ((d.rsi < 35 → (signalFromData d).leverage = 10) ∧
       (35 ≤ d.rsi → (signalFromData d).leverage = 5))) ∧
    (d.currentPrice < d.ema7 ∧ d.ema7 < d.ema100 ∧ d.ema100 < d.ema200 ∧
        |(d.currentPrice - d.ema7) / d.ema7| ≤ 3 / 1000 ∧ 50 ≤ d.rsi ∧ d.rsi ≤ 70 →
      ((d.rsi > 65 → (signalFromData d).leverage = 10) ∧
       (d.rsi ≤ 65 → (signalFromData d).leverage = 5))) := by
  constructor
  · rintro ⟨h1, h2, h3, h4, h5, h6⟩
    have hL := isLongSignal_of_conditions d h1 h2 h3 h4 h5 h6
    simp only [signalFromData, hL, if_true]
    constructor
    · intro h35
      simp [determineLeverage, h35]
    · intro h35
      simp [determineLeverage, not_lt.mpr h35]
  · rintro ⟨h1, h2, h3, h4, h5, h6⟩
    have hLf := isLongSignal_eq_false_of_lt d h1
    have hS := isShortSignal_of_conditions d h1 h2 h3 h4 h5 h6
    simp only [signalFromData, hLf, hS, if_true, Bool.false_eq_true, if_false]
    constructor
    · intro h65
      simp [determineLeverage, h65]
    · intro h65
      simp [determineLeverage, not_lt.mpr h65]

/-- Witness for C7 at the spec scenarios A (momentum 34, high tier) and B
(momentum 45, base tier) plus their short mirrors (momentum 67 and 60). -/
theorem claim_C7_witness :
    (signalFromData ⟨41980, 41500, 41000, 34, 42000⟩).leverage = 10 ∧
    (signalFromData ⟨41980, 41500, 41000, 45, 42000⟩).leverage = 5 ∧
    (signalFromData ⟨41020, 41500, 42000, 67, 41000⟩).leverage = 10 ∧
    (signalFromData ⟨41020, 41500, 42000, 60, 41000⟩).leverage = 5 :=
  ⟨((claim_C7_leverage_tiers ⟨41980, 41500, 41000, 34, 42000⟩).1
      (by refine ⟨?_, ?_, ?_, ?_, ?_, ?_⟩ <;> with_unfolding_all decide)).1
      (by with_unfolding_all decide),
   ((claim_C7_leverage_tiers ⟨41980, 41500, 41000, 45, 42000⟩).1
      (by refine ⟨?_, ?_, ?_, ?_, ?_, ?_⟩ <;> with_unfolding_all decide)).2
      (by with_unfolding_all decide),
   ((claim_C7_leverage_tiers ⟨41020, 41500, 42000, 67, 41000⟩).2
      (by refine ⟨?_, ?_, ?_, ?_, ?_, ?_⟩ <;> with_unfolding_all decide)).1
      (by with_unfolding_all decide),
   ((claim_C7_leverage_tiers ⟨41020, 41500, 42000, 60, 41000⟩).2
      (by refine ⟨?_, ?_, ?_, ?_, ?_, ?_⟩ <;> with_unfolding_all decide)).2
      (by with_unfolding_all decide)⟩

/-! ## Execution state machine (advancedTradingService.ts)

The Binance client is modelled as an environment `Env` of injected responses
for one execution cycle: the candles returned by `getKlines` and, for each
exchange call the cycle makes, whether that call throws.  Every exchange call
the service makes is recorded as an `Effect`; a failing call is still recorded
(the request was issued) and the thrown error then follows the source's
try/catch structure. -/

/-- Order side strings `'BUY' | 'SELL'` of the source. -/
inductive OrderSide where
  | BUY
  | SELL
  deriving DecidableEq

/-- The `Logger.error` call sites of advancedTradingService.ts that the model
tracks (one per catch block of the embedded methods). -/
inductive LogSite where
  | closePositions
  | executeTrade
  | setTakeProfitStopLoss
  | executeStrategy
  | monitorPosition
  deriving DecidableEq

/-- Externally visible actions of the service: Binance client calls, Telegram
pushes (`telegramService.send…Alert`, used elsewhere in the repository but
never by `AdvancedTradingService`), and error-log lines. -/
inductive Effect where
  | getPositionsCall
  | closePositions (symbol : String)
  | cancelOrders (symbol : String)
  | setLeverage (symbol : String) (leverage : ℚ)
  | marketOrder (symbol : String) (side : OrderSide) (quantity : ℚ)
  | takeProfitOrder (symbol : String) (side : OrderSide) (quantity price : ℚ)
  | stopLossOrder (symbol : String) (side : OrderSide) (quantity price : ℚ)
  | telegramAlert (site : LogSite)
  | logPnl (pnl : ℚ)
  | logError (site : LogSite)
  deriving DecidableEq

/-- `PositionInfo` from advancedTradingService.ts (the tracked position). -/
structure PositionInfo where
  symbol : String
  side : Action
  size : ℚ
  entryPrice : ℚ
  leverage : ℚ
  takeProfitPrice : ℚ
  stopLossPrice : ℚ
  unrealizedPnl : ℚ
  deriving DecidableEq

/-- The mutable fields of `AdvancedTradingService`: `currentPosition` and
`accountBalance`. -/
structure BotState where
  currentPosition : Option PositionInfo
  accountBalance : ℚ
  deriving DecidableEq

/-- `TradingConfig` from config.ts (the fields the embedded methods read). -/
structure Config where
  symbol : String
  leverage : ℚ
  tradeAmount : ℚ
  stopLossPoints : ℚ
  takeProfitPoints : ℚ
  deriving DecidableEq

/-- The default configuration values of config.ts. -/
def defaultConfig : Config :=
  { symbol := "BTCUSDT", leverage := 10, tradeAmount := 100,
    stopLossPoints := 500, takeProfitPoints := 500 }

/-- Exchange responses injected into one execution cycle. -/
structure Env where
  closePrices : List ℚ
  closeAllFails : Bool
  cancelFails : Bool
  setLeverageFails : Bool
  marketOrderFails : Bool
  takeProfitFails : Bool
  stopLossFails : Bool
  deriving DecidableEq

/-- `roundQuantity`: `Math.floor(quantity * 1000) / 1000`. -/
def roundQuantity (quantity : ℚ) : ℚ := (⌊quantity * 1000⌋ : ℚ) / 1000

/-- `getCurrentBalance`: the source awaits `getPositions`, discards the result
(errors are caught inside), and returns `this.accountBalance ||
config.tradeAmount` — the configured default when the cached balance is 0
(JavaScript falsy).  It never throws. -/
def getCurrentBalance (cfg : Config) (st : BotState) : ℚ :=
  if st.accountBalance = 0 then cfg.tradeAmount else st.accountBalance

/-- `updateAccountBalance`: store `getCurrentBalance` into the state (the
inner `getPositions` call is recorded). -/
def updateAccountBalance (cfg : Config) (st : BotState) : BotState × List Effect :=
  ({ st with accountBalance := getCurrentBalance cfg st }, [Effect.getPositionsCall])

/-- `closeAllPositions` of `AdvancedTradingService`: close exchange positions,
cancel open orders, clear the tracked position, wait.  Any throw from the two
client calls is caught and logged inside this method, skipping the remaining
statements (in particular the clearing of `currentPosition`) but returning
normally to the caller. -/
def closeAllPositions (cfg : Config) (env : Env) (st : BotState) : BotState × List Effect :=
  if env.closeAllFails then
    (st, [Effect.closePositions cfg.symbol, Effect.logError LogSite.closePositions])
  else if env.cancelFails then
    (st, [Effect.closePositions cfg.symbol, Effect.cancelOrders cfg.symbol,
          Effect.logError LogSite.closePositions])
  else
    ({ st with currentPosition := none },
     [Effect.closePositions cfg.symbol, Effect.cancelOrders cfg.symbol])

/-- `executeTrade`: set leverage, size the position from 95% of the cached
balance, submit the market order, compute bracket prices, place take-profit
then stop-loss (via `setTakeProfitStopLoss`, whose catch logs and rethrows),
and only then record `currentPosition`.  The returned `Bool` is true when the
method rethrows (its catch logs and rethrows).  A NO_SIGNAL action returns
immediately. -/
def executeTrade (cfg : Config) (env : Env) (st : BotState) (signal : TradingSignal) :
    BotState × List Effect × Bool :=
  if signal.action = Action.NO_SIGNAL then (st, [], false)
  else
    let tr0 := [Effect.setLeverage cfg.symbol signal.leverage]
    if env.setLeverageFails then (st, tr0 ++ [Effect.logError LogSite.executeTrade], true)
    else
      let availableBalance := st.accountBalance * (95 / 100)
      let notionalValue := availableBalance * signal.leverage
      let quantity := notionalValue / signal.data.currentPrice
      let roundedQuantity := roundQuantity quantity
      let side := if signal.action = Action.LONG then OrderSide.BUY else OrderSide.SELL
      let tr1 := tr0 ++ [Effect.marketOrder cfg.symbol side roundedQuantity]
      if env.marketOrderFails then (st, tr1 ++ [Effect.logError LogSite.executeTrade], true)
      else
        let takeProfitPrice :=
          if signal.action = Action.LONG then signal.data.currentPrice + cfg.takeProfitPoints
          else signal.data.currentPrice - cfg.takeProfitPoints
        let stopLossPrice :=
          if signal.action = Action.LONG then signal.data.currentPrice - cfg.stopLossPoints
          else signal.data.currentPrice + cfg.stopLossPoints
        let oppositeSide := if signal.action = Action.LONG then OrderSide.SELL else OrderSide.BUY
        let tr2 := tr1 ++ [Effect.takeProfitOrder cfg.symbol oppositeSide roundedQuantity takeProfitPrice]
        if env.takeProfitFails then
          (st, tr2 ++ [Effect.logError LogSite.setTakeProfitStopLoss,
                       Effect.logError LogSite.executeTrade], true)
        else
          let tr3 := tr2 ++ [Effect.stopLossOrder cfg.symbol oppositeSide roundedQuantity stopLossPrice]
          if env.stopLossFails then
            (st, tr3 ++ [Effect.logError LogSite.setTakeProfitStopLoss,
                         Effect.logError LogSite.executeTrade], true)
          else
            ({ st with currentPosition := some {
                  symbol := cfg.symbol, side := signal.action, size := roundedQuantity,
                  entryPrice := signal.data.currentPrice, leverage := signal.leverage,
                  takeProfitPrice := takeProfitPrice, stopLossPrice := stopLossPrice,
                  unrealizedPnl := 0 } },
             tr3, false)

/-- `executeStrategy`: refresh the balance, flatten, generate the signal,
return on NO_SIGNAL, otherwise trade; its catch logs any rethrown error and
returns normally. -/
def executeStrategy (cfg : Config) (env : Env) (st : BotState) : BotState × List Effect :=
  let r1 := updateAccountBalance cfg st
  let r2 := closeAllPositions cfg env r1.1
  let signal := generateTradingSignal env.closePrices
  if signal.action = Action.NO_SIGNAL then (r2.1, r1.2 ++ r2.2)
  else
    let r3 := executeTrade cfg env r2.1 signal
    if r3.2.2 then
      (r3.1, r1.2 ++ r2.2 ++ r3.2.1 ++ [Effect.logError LogSite.executeStrategy])
    else (r3.1, r1.2 ++ r2.2 ++ r3.2.1)

/-! ## Position monitor (advancedTradingService.ts, monitorPosition) -/

/-- One entry of the array returned by the Binance client `getPositions` call
(the fields monitorPosition reads). -/
structure ExchangePosition where
  symbol : String
  positionAmt : ℚ
  unRealizedProfit : ℚ
  deriving DecidableEq

/-- Result of the `getPositions` query on a monitor tick: a position list, or
a thrown error. -/
inductive QueryResult where
  | ok (raw : List ExchangePosition)
  | fail
  deriving DecidableEq

/-- Exchange responses injected into one monitor tick. -/
structure MonitorEnv where
  query : QueryResult
  cancelFails : Bool
  deriving DecidableEq

/-- `BinanceFuturesService.getPositions` filters out entries with
`positionAmt` equal to 0 before returning. -/
def getPositions (raw : List ExchangePosition) : List ExchangePosition :=
  raw.filter (fun p => decide (p.positionAmt ≠ 0))

/-- The `positions.find` of monitorPosition: an entry for the tracked symbol
with nonzero `positionAmt`, searched in the already-filtered list. -/
def findActive (raw : List ExchangePosition) (sym : String) : Option ExchangePosition :=
  (getPositions raw).find? (fun p => decide (p.symbol = sym ∧ p.positionAmt ≠ 0))

/-- `monitorPosition`: return immediately when no position is tracked; on a
query failure the catch logs and returns with nothing changed; when no active
exchange position is found the position has closed — read the balance, log the
P&L (balance delta), clear the tracked position, store the new balance and
cancel remaining orders (a cancel failure is caught and logged after the state
was already updated); otherwise refresh `unrealizedPnl` from the venue. -/
def monitorPosition (cfg : Config) (e : MonitorEnv) (st : BotState) : BotState × List Effect :=
  match st.currentPosition with
  | none => (st, [])
  | some pos =>
    match e.query with
    | QueryResult.fail => (st, [Effect.getPositionsCall, Effect.logError LogSite.monitorPosition])
    | QueryResult.ok raw =>
      match findActive raw pos.symbol with
      | none =>
          let newBalance := getCurrentBalance cfg st
          let tr := [Effect.getPositionsCall, Effect.getPositionsCall,
                     Effect.logPnl (newBalance - st.accountBalance),
                     Effect.cancelOrders cfg.symbol]
          if e.cancelFails then
            ({ currentPosition := none, accountBalance := newBalance },
             tr ++ [Effect.logError LogSite.monitorPosition])
          else
            ({ currentPosition := none, accountBalance := newBalance }, tr)
      | some active =>
          ({ st with currentPosition := some { pos with unrealizedPnl := active.unRealizedProfit } },
           [Effect.getPositionsCall])

/-- A sequence of monitor ticks, folding the state and concatenating effects. -/
def runMonitor (cfg : Config) : List MonitorEnv → BotState → BotState × List Effect
  | [], st => (st, [])
  | e :: es, st =>
      let r1 := monitorPosition cfg e st
      let r2 := runMonitor cfg es r1.1
      (r2.1, r1.2 ++ r2.2)

/-- A monitor tick whose position query succeeds and reports no active
position for the given symbol. -/
def zeroReadFor (sym : String) (e : MonitorEnv) : Prop :=
  ∃ raw, e.query = QueryResult.ok raw ∧ findActive raw sym = none

/-- Predicate selecting the entry market orders in an effect trace. -/
def isEntryOrder : Effect → Bool
  | Effect.marketOrder _ _ _ => true
  | _ => false

/-- Number of entry market orders submitted in a trace. -/
def countEntryOrders (tr : List Effect) : Nat := (tr.filter isEntryOrder).length

/-- Predicate selecting the position-closure P&L reports in a trace. -/
def isClosureReport : Effect → Bool
  | Effect.logPnl _ => true
  | _ => false

/-- Number of position-closure events reported in a trace. -/
def closureCount (tr : List Effect) : Nat := (tr.filter isClosureReport).length

/-- With no tracked position, a monitor tick does nothing at all. -/
theorem monitorPosition_none (cfg : Config) (e : MonitorEnv) (st : BotState)
    (h : st.currentPosition = none) : monitorPosition cfg e st = (st, []) := by
  unfold monitorPosition
  rw [h]

/-- With no tracked position, any sequence of monitor ticks does nothing. -/
theorem runMonitor_none (cfg : Config) (envs : List MonitorEnv) (st : BotState)
    (h : st.currentPosition = none) : runMonitor cfg envs st = (st, []) := by
  induction envs with
  | nil => rfl
  | cons e es ih =>
      unfold runMonitor
      rw [monitorPosition_none cfg e st h]
      simp [ih]

/-- A zero-read tick on a tracked position clears it and reports exactly one
closure. -/
theorem monitorPosition_zeroRead (cfg : Config) (e : MonitorEnv) (st : BotState)
    (pos : PositionInfo) (hpos : st.currentPosition = some pos)
    (hz : zeroReadFor pos.symbol e) :
    (monitorPosition cfg e st).1 =
      { currentPosition := none, accountBalance := getCurrentBalance cfg st } ∧
    closureCount (monitorPosition cfg e st).2 = 1 := by
  obtain ⟨raw, hq, hfind⟩ := hz
  cases hc : e.cancelFails <;>
    simp [monitorPosition, hpos, hq, hfind, hc, closureCount, isClosureReport]

/-- Claim C8: a zero-read on a tracked position clears the position, stores
the re-read balance, reports the P&L as the balance delta and cancels residual
orders; a tick with no tracked position is a complete no-op; and over any
nonempty run of zero-read ticks the closure is reported exactly once and the
position ends cleared. -/
theorem claim_C8_closure_exactly_once (cfg : Config) :
    (∀ e st pos, st.currentPosition = some pos → zeroReadFor pos.symbol e →
      ((monitorPosition cfg e st).1.currentPosition = none ∧
       (monitorPosition cfg e st).1.accountBalance = getCurrentBalance cfg st ∧
       Effect.logPnl (getCurrentBalance cfg st - st.accountBalance) ∈ (monitorPosition cfg e st).2 ∧
       Effect.cancelOrders cfg.symbol ∈ (monitorPosition cfg e st).2)) ∧
    (∀ e st, st.currentPosition = none → monitorPosition cfg e st = (st, [])) ∧
    (∀ envs st pos, st.currentPosition = some pos →
      (∀ e ∈ envs, zeroReadFor pos.symbol e) → envs ≠ [] →
      closureCount (runMonitor cfg envs st).2 = 1 ∧
      (runMonitor cfg envs st).1.currentPosition = none) := by
  refine ⟨?_, ?_, ?_⟩
  · intro e st pos hpos hz
    obtain ⟨raw, hq, hfind⟩ := hz
    cases hc : e.cancelFails <;> simp [monitorPosition, hpos, hq, hfind, hc]
  · intro e st h
    exact monitorPosition_none cfg e st h
  · intro envs st pos hpos hall hne
    cases envs with
    | nil => exact absurd rfl hne
    | cons e es =>
        have hz := hall e (List.mem_cons_self e es)
        have h1 := monitorPosition_zeroRead cfg e st pos hpos hz
        have hnone : (monitorPosition cfg e st).1.currentPosition = none := by rw [h1.1]
        simp only [runMonitor]
        rw [runMonitor_none cfg es (monitorPosition cfg e st).1 hnone]
        constructor
        · simpa [closureCount] using h1.2
        · exact hnone

/-- A monitor tick whose query succeeds on an empty position list, with no
cancellation failure. -/
def tickZero : MonitorEnv := { query := QueryResult.ok [], cancelFails := false }

/-- A monitor tick whose position query throws. -/
def tickFail : MonitorEnv := { query := QueryResult.fail, cancelFails := false }

/-- A tracked position, as recorded after a successful entry. -/
def trackedPos : PositionInfo :=
  { symbol := defaultConfig.symbol, side := Action.LONG, size := 1 / 2
    entryPrice := 10000, leverage := 5, takeProfitPrice := 10500
    stopLossPrice := 9500, unrealizedPnl := 0 }

/-- A service state holding a tracked position and a cached balance. -/
def mState : BotState := { currentPosition := some trackedPos, accountBalance := 100 }

/-- Witness for C8: a zero-read on a tracked BTCUSDT position clears it and
cancels orders; two consecutive zero-reads report the closure exactly once. -/
theorem claim_C8_witness :
    ((monitorPosition defaultConfig tickZero mState).1.currentPosition = none ∧
     Effect.cancelOrders defaultConfig.symbol ∈ (monitorPosition defaultConfig tickZero mState).2) ∧
    closureCount (runMonitor defaultConfig [tickZero, tickZero] mState).2 = 1 := by
  have hz : zeroReadFor trackedPos.symbol tickZero := ⟨[], rfl, rfl⟩
  have h := claim_C8_closure_exactly_once defaultConfig
  refine ⟨⟨(h.1 tickZero mState trackedPos rfl hz).1,
           (h.1 tickZero mState trackedPos rfl hz).2.2.2⟩, ?_⟩
  refine (h.2.2 [tickZero, tickZero] mState trackedPos rfl ?_ (by simp)).1
  intro e he
  rcases List.mem_cons.mp he with rfl | he2
  · exact hz
  · rcases List.mem_cons.mp he2 with rfl | he3
    · exact hz
    · exact absurd he3 (List.not_mem_nil e)

/-- Claim C9: when the position query throws, the monitor tick leaves the
tracked position and cached balance untouched and performs nothing beyond the
failed query and an error log — a query failure is never treated as closure. -/
theorem claim_C9_query_failure_is_transient (cfg : Config) (e : MonitorEnv) (st : BotState)
    (h : e.query = QueryResult.fail) :
    (monitorPosition cfg e st).1 = st ∧
    ∀ eff ∈ (monitorPosition cfg e st).2,
      eff = Effect.getPositionsCall ∨ eff = Effect.logError LogSite.monitorPosition := by
  unfold monitorPosition
  cases hc : st.currentPosition with
  | none => simp
  | some pos =>
      rw [h]
      simp

/-- Witness for C9 at a concrete failing tick on a tracked position. -/
theorem claim_C9_witness :
    (monitorPosition defaultConfig tickFail mState).1 = mState ∧
    ∀ eff ∈ (monitorPosition defaultConfig tickFail mState).2,
      eff = Effect.getPositionsCall ∨ eff = Effect.logError LogSite.monitorPosition :=
  claim_C9_query_failure_is_transient defaultConfig tickFail mState rfl

/-- Claim C10: when the entry market order succeeds but a protective order
submission throws, executeTrade rethrows, the tracked position stays `none`
(it is assigned only after both bracket orders succeed), the entry order is in
the submitted trace, and every subsequent monitor tick returns immediately. -/
theorem claim_C10_bracket_failure_leaves_untracked (cfg : Config) (env : Env) (st : BotState)
    (signal : TradingSignal)
    (hpos : st.currentPosition = none)
    (hact : signal.action ≠ Action.NO_SIGNAL)
    (hlev : env.setLeverageFails = false)
    (hmkt : env.marketOrderFails = false)
    (hbr : env.takeProfitFails = true ∨ env.stopLossFails = true) :
    (executeTrade cfg env st signal).2.2 = true ∧
    (executeTrade cfg env st signal).1.currentPosition = none ∧
    (∃ side q, Effect.marketOrder cfg.symbol side q ∈ (executeTrade cfg env st signal).2.1) ∧
    ∀ e : MonitorEnv, monitorPosition cfg e (executeTrade cfg env st signal).1 =
      ((executeTrade cfg env st signal).1, []) := by
  by_cases htp : env.takeProfitFails = true
  · have h22 : (executeTrade cfg env st signal).2.2 = true := by
      unfold executeTrade
      rw [if_neg hact]
      simp [hlev, hmkt, htp]
    have h1 : (executeTrade cfg env st signal).1.currentPosition = none := by
      unfold executeTrade
      rw [if_neg hact]
      simp [hlev, hmkt, htp, hpos]
    refine ⟨h22, h1, ?_, fun e => monitorPosition_none cfg e _ h1⟩
    refine ⟨if signal.action = Action.LONG then OrderSide.BUY else OrderSide.SELL,
      roundQuantity (st.accountBalance * (95 / 100) * signal.leverage / signal.data.currentPrice), ?_⟩
    unfold executeTrade
    rw [if_neg hact]
    simp [hlev, hmkt, htp]
  · have hsl : env.stopLossFails = true := hbr.resolve_left htp
    have htpf : env.takeProfitFails = false := by
      cases hvt : env.takeProfitFails
      · rfl
      · exact absurd hvt htp
    have h22 : (executeTrade cfg env st signal).2.2 = true := by
      unfold executeTrade
      rw [if_neg hact]
      simp [hlev, hmkt, htpf, hsl]
    have h1 : (executeTrade cfg env st signal).1.currentPosition = none := by
      unfold executeTrade
      rw [if_neg hact]
      simp [hlev, hmkt, htpf, hsl, hpos]
    refine ⟨h22, h1, ?_, fun e => monitorPosition_none cfg e _ h1⟩
    refine ⟨if signal.action = Action.LONG then OrderSide.BUY else OrderSide.SELL,
      roundQuantity (st.accountBalance * (95 / 100) * signal.leverage / signal.data.currentPrice), ?_⟩
    unfold executeTrade
    rw [if_neg hact]
    simp [hlev, hmkt, htpf, hsl]

/-- A LONG signal carrying the spec scenario snapshot with price 42000. -/
def sigLong42k : TradingSignal :=
  { action := Action.LONG, leverage := 5, confidence := 0
    data := { ema7 := 41980, ema100 := 41500, ema200 := 41000, rsi := 45, currentPrice := 42000 } }

/-- An execution-cycle environment where only the take-profit placement throws. -/
def envTpFail : Env :=
  { closePrices := [], closeAllFails := false, cancelFails := false
    setLeverageFails := false, marketOrderFails := false
    takeProfitFails := true, stopLossFails := false }

/-- A fresh service state with no tracked position and a 1000 USDT balance. -/
def freshState : BotState := { currentPosition := none, accountBalance := 1000 }

/-- Witness for C10 at a concrete cycle whose take-profit placement throws. -/
theorem claim_C10_witness :
    (executeTrade defaultConfig envTpFail freshState sigLong42k).2.2 = true ∧
    (executeTrade defaultConfig envTpFail freshState sigLong42k).1.currentPosition = none ∧
    (∃ side q, Effect.marketOrder defaultConfig.symbol side q ∈
      (executeTrade defaultConfig envTpFail freshState sigLong42k).2.1) ∧
    ∀ e : MonitorEnv, monitorPosition defaultConfig e
        (executeTrade defaultConfig envTpFail freshState sigLong42k).1 =
      ((executeTrade defaultConfig envTpFail freshState sigLong42k).1, []) :=
  claim_C10_bracket_failure_leaves_untracked defaultConfig envTpFail freshState sigLong42k
    rfl (by decide) rfl rfl (Or.inl rfl)

/-- A service state whose cached balance is 1 USDT: the computed quantity
rounds down to zero. -/
def tinyState : BotState := { currentPosition := none, accountBalance := 1 }

/-- An execution-cycle environment where every exchange call succeeds. -/
def envNoFail : Env :=
  { closePrices := [], closeAllFails := false, cancelFails := false
    setLeverageFails := false, marketOrderFails := false
    takeProfitFails := false, stopLossFails := false }

/-- Claim C4, evaluated at the failing input: with a 1 USDT balance, leverage
5 and price 42000 the computed quantity rounds down to 0, yet executeTrade
submits the market order with quantity 0, completes without any error, and
records a zero-size tracked position — the sizing step is not treated as an
error and the entry is not aborted. -/
theorem claim_C4_zero_quantity_not_aborted :
    roundQuantity (tinyState.accountBalance * (95 / 100) * sigLong42k.leverage /
      sigLong42k.data.currentPrice) = 0 ∧
    Effect.marketOrder defaultConfig.symbol OrderSide.BUY 0 ∈
      (executeTrade defaultConfig envNoFail tinyState sigLong42k).2.1 ∧
    (executeTrade defaultConfig envNoFail tinyState sigLong42k).2.2 = false ∧
    (executeTrade defaultConfig envNoFail tinyState sigLong42k).1.currentPosition ≠ none := by
  refine ⟨?_, ?_, ?_, ?_⟩ <;> with_unfolding_all decide

/-! ## Scheduler re-entrancy (AdvancedTradingBot.startScheduledTrading)

`startScheduledTrading` wires `executeStrategy` to a cron trigger with no
re-entrancy guard: a trigger firing while a previous invocation is suspended
at an await point simply starts a second invocation against the shared service
state.  The interleaving of two invocations is modelled as a small-step system
whose steps are the await-separated stages of `executeStrategy`; a scheduler
word picks which invocation advances. -/

/-- The await-separated stages of one `executeStrategy` invocation. -/
inductive Phase where
  | start
  | balanced
  | flattened
  | signalled (signal : TradingSignal)
  | done
  deriving DecidableEq

/-- One stage of `executeStrategy`, acting on the shared service state. -/
def stepStrategy (cfg : Config) (env : Env) (st : BotState) : Phase → BotState × Phase × List Effect
  | Phase.start =>
      let r := updateAccountBalance cfg st
      (r.1, Phase.balanced, r.2)
  | Phase.balanced =>
      let r := closeAllPositions cfg env st
      (r.1, Phase.flattened, r.2)
  | Phase.flattened =>
      let signal := generateTradingSignal env.closePrices
      if signal.action = Action.NO_SIGNAL then (st, Phase.done, [])
      else (st, Phase.signalled signal, [])
  | Phase.signalled signal =>
      let r := executeTrade cfg env st signal
      (r.1, Phase.done,
       r.2.1 ++ if r.2.2 then [Effect.logError LogSite.executeStrategy] else [])
  | Phase.done => (st, Phase.done, [])

/-- Two concurrent `executeStrategy` invocations sharing the service state. -/
structure TwoTasks where
  st : BotState
  phaseA : Phase
  phaseB : Phase
  deriving DecidableEq

/-- Run two invocations under a scheduler word: `true` advances the first
invocation by one stage, `false` the second. -/
def runSched (cfg : Config) (envA envB : Env) : List Bool → TwoTasks → TwoTasks × List Effect
  | [], t => (t, [])
  | pick :: rest, t =>
      let r :=
        if pick then
          let s := stepStrategy cfg envA t.st t.phaseA
          ((⟨s.1, s.2.1, t.phaseB⟩ : TwoTasks), s.2.2)
        else
          let s := stepStrategy cfg envB t.st t.phaseB
          ((⟨s.1, t.phaseA, s.2.1⟩ : TwoTasks), s.2.2)
      let rc := runSched cfg envA envB rest r.1
      (rc.1, r.2 ++ rc.2)

/-- Running one invocation alone through its four stages is `executeStrategy`:
the small-step system refines the sequential method. -/
theorem runSched_single_task (cfg : Config) (env : Env) (st : BotState) :
    (runSched cfg env env [true, true, true, true]
      { st := st, phaseA := Phase.start, phaseB := Phase.start }).1.st =
      (executeStrategy cfg env st).1 ∧
    (runSched cfg env env [true, true, true, true]
      { st := st, phaseA := Phase.start, phaseB := Phase.start }).2 =
      (executeStrategy cfg env st).2 := by
  by_cases hsig : (generateTradingSignal env.closePrices).action = Action.NO_SIGNAL
  · simp [runSched, stepStrategy, executeStrategy, hsig]
  · cases hthrew : (executeTrade cfg env
        (closeAllPositions cfg env (updateAccountBalance cfg st).1).1
        (generateTradingSignal env.closePrices)).2.2 <;>
      simp [runSched, stepStrategy, executeStrategy, hsig, hthrew]

/-- The 200 close prices of a candle response on which the decision engine
fires LONG: a flat stretch, a steady rise establishing the EMA alignment, and
a loss-biased chop bringing RSI(14) into the [30,50] band with the last close
just above EMA7. -/
def longCandles : List ℚ :=
  [10000, 10000, 10000, 10000, 10000, 10000, 10000, 10000, 10000, 10000,
    10000, 10000, 10000, 10000, 10000, 10000, 10000, 10000, 10000, 10000,
    10000, 10000, 10000, 10000, 10000, 10000, 10000, 10000, 10000, 10000,
    10000, 10000, 10000, 10000, 10000, 10000, 10000, 10000, 10000, 10000,
    10000, 10000, 10000, 10000, 10000, 10000, 10000, 10000, 10000, 10000,
    10000, 10000, 10000, 10000, 10000, 10000, 10000, 10000, 10000, 10000,
    10000, 10000, 10000, 10000, 10000, 10000, 10000, 10000, 10000, 10000,
    10000, 10000, 10000, 10000, 10000, 10000, 10000, 10000, 10000, 10000,
    10000, 10000, 10000, 10000, 10000, 10000, 10000, 10000, 10000, 10000,
    10000, 10000, 10000, 10000, 10000, 10000, 10000, 10000, 10000, 10000,
    10010, 10020, 10030, 10040, 10050, 10060, 10070, 10080, 10090, 10100,
    10110, 10120, 10130, 10140, 10150, 10160, 10170, 10180, 10190, 10200,
    10210, 10220, 10230, 10240, 10250, 10260, 10270, 10280, 10290, 10300,
    10310, 10320, 10330, 10340, 10350, 10360, 10370, 10380, 10390, 10400,
    10410, 10420, 10430, 10440, 10450, 10460, 10470, 10480, 10490, 10500,
    10510, 10520, 10530, 10540, 10550, 10560, 10570, 10580, 10590, 10600,
    10588, 10595, 10583, 10590, 10578, 10585, 10573, 10580, 10568, 10575,
    10563, 10570, 10558, 10565, 10553, 10560, 10548, 10555, 10543, 10550,
    10538, 10545, 10533, 10540, 10528, 10535, 10523, 10530, 10518, 10525,
    10513, 10520, 10508, 10515, 10503, 10510, 10498, 10505, 10507, 10510]

/-- An execution cycle on the LONG candle response with every exchange call
succeeding. -/
def envLong : Env := { envNoFail with closePrices := longCandles }

/-- The same cycle but the flatten call (`closeAllPositions`) throws. -/
def envFlattenFail : Env := { envLong with closeAllFails := true }

/-- The same cycle but the take-profit placement throws after the entry
market order went through. -/
def envBracketFail : Env := { envLong with takeProfitFails := true }

/-- The same cycle but the initial `setLeverage` call throws (an ordinary
exchange rejection before any order exists). -/
def envLevFail : Env := { envLong with setLeverageFails := true }

/-- Predicate selecting notification-sink pushes in a trace. -/
def isAlert : Effect → Bool
  | Effect.telegramAlert _ => true
  | _ => false

/-- Any executeTrade call with a directional signal and a succeeding
setLeverage call submits the entry market order (whatever happens later in
the cycle). -/
theorem executeTrade_submits_market_order (cfg : Config) (env : Env) (st : BotState)
    (signal : TradingSignal) (hact : signal.action ≠ Action.NO_SIGNAL)
    (hlev : env.setLeverageFails = false) :
    ∃ side q, Effect.marketOrder cfg.symbol side q ∈ (executeTrade cfg env st signal).2.1 := by
  refine ⟨if signal.action = Action.LONG then OrderSide.BUY else OrderSide.SELL,
    roundQuantity (st.accountBalance * (95 / 100) * signal.leverage / signal.data.currentPrice), ?_⟩
  unfold executeTrade
  rw [if_neg hact]
  simp only [hlev, Bool.false_eq_true, if_false]
  split_ifs <;> simp

/-- Claim C1 at the failing schedule: `startScheduledTrading` wires the
strategy to its cron triggers with no re-entrancy guard, so a second trigger
dispatched while the first invocation is suspended between signal computation
and order submission is not rejected: both invocations run to completion and
two entry market orders are submitted for the same symbol in one interleaved
execution. -/
theorem claim_C1_second_trigger_not_rejected :
    (generateTradingSignal longCandles).action = Action.LONG ∧
    ((runSched defaultConfig envLong envLong
        [true, true, true, false, false, false, false, true]
        { st := freshState, phaseA := Phase.start, phaseB := Phase.start }).1.phaseA = Phase.done ∧
     (runSched defaultConfig envLong envLong
        [true, true, true, false, false, false, false, true]
        { st := freshState, phaseA := Phase.start, phaseB := Phase.start }).1.phaseB = Phase.done) ∧
    countEntryOrders (runSched defaultConfig envLong envLong
        [true, true, true, false, false, false, false, true]
        { st := freshState, phaseA := Phase.start, phaseB := Phase.start }).2 = 2 := by
  with_unfolding_all decide

/-- Counterexample to C2 as stated: in a cycle whose flatten step throws, the
failure is logged, yet the cycle still generates the signal and submits the
entry market order — it does not abort. -/
theorem claim_C2_counterexample :
    envFlattenFail.closeAllFails = true ∧
    Effect.logError LogSite.closePositions ∈
      (executeStrategy defaultConfig envFlattenFail freshState).2 ∧
    countEntryOrders (executeStrategy defaultConfig envFlattenFail freshState).2 = 1 := by
  with_unfolding_all decide

/-- When either client call of the flatten step throws — closing the exchange
positions or cancelling the open orders — `closeAllPositions` catches and logs
the error and returns with the service state unchanged: in particular the
tracked position is not cleared. -/
theorem closeAllPositions_failure (cfg : Config) (env : Env) (st : BotState)
    (hfail : env.closeAllFails = true ∨ env.cancelFails = true) :
    (closeAllPositions cfg env st).1 = st ∧
    Effect.logError LogSite.closePositions ∈ (closeAllPositions cfg env st).2 := by
  by_cases hca : env.closeAllFails = true
  · simp [closeAllPositions, hca]
  · have hcf : env.cancelFails = true := hfail.resolve_left hca
    have hca2 : env.closeAllFails = false := by
      cases h : env.closeAllFails
      · rfl
      · exact absurd h hca
    simp [closeAllPositions, hca2, hcf]

/-- Claim C2 (amended): when the Flattening step fails — either the
close-positions call or the cancel-orders call throws — the failure is caught
and logged inside `closeAllPositions` and the process continues, but the cycle
does not abort: the flatten step leaves the tracked position uncleared, the
signal is still generated and, with a directional signal and a succeeding
setLeverage call, the entry market order is still submitted. -/
theorem claim_C2_flatten_failure_cycle_continues (cfg : Config) (env : Env) (st : BotState)
    (hfail : env.closeAllFails = true ∨ env.cancelFails = true)
    (hsig : (generateTradingSignal env.closePrices).action ≠ Action.NO_SIGNAL)
    (hlev : env.setLeverageFails = false) :
    (closeAllPositions cfg env st).1.currentPosition = st.currentPosition ∧
    Effect.logError LogSite.closePositions ∈ (executeStrategy cfg env st).2 ∧
    ∃ side q, Effect.marketOrder cfg.symbol side q ∈ (executeStrategy cfg env st).2 := by
  have hflat := closeAllPositions_failure cfg env (updateAccountBalance cfg st).1 hfail
  have hlog := hflat.2
  obtain ⟨side, q, hmkt⟩ := executeTrade_submits_market_order cfg env
    (closeAllPositions cfg env (updateAccountBalance cfg st).1).1
    (generateTradingSignal env.closePrices) hsig hlev
  refine ⟨?_, ?_, ?_⟩
  · exact congrArg BotState.currentPosition (closeAllPositions_failure cfg env st hfail).1
  · simp only [executeStrategy]
    rw [if_neg hsig]
    split_ifs <;> simp [List.mem_append] <;> tauto
  · refine ⟨side, q, ?_⟩
    simp only [executeStrategy]
    rw [if_neg hsig]
    split_ifs <;> simp [List.mem_append] <;> tauto

/-- The LONG cycle but the cancel-orders call of the flatten step throws. -/
def envCancelFail : Env := { envLong with cancelFails := true }

/-- Witness for the amended C2 at the concrete cancel-failure flatten cycle. -/
theorem claim_C2_witness :
    (closeAllPositions defaultConfig envCancelFail freshState).1.currentPosition =
      freshState.currentPosition ∧
    Effect.logError LogSite.closePositions ∈
      (executeStrategy defaultConfig envCancelFail freshState).2 ∧
    ∃ side q, Effect.marketOrder defaultConfig.symbol side q ∈
      (executeStrategy defaultConfig envCancelFail freshState).2 :=
  claim_C2_flatten_failure_cycle_continues defaultConfig envCancelFail freshState
    (Or.inr rfl) (by with_unfolding_all decide) rfl

/-- Claim C3 at the failing input: in a cycle where the entry order fills and
the take-profit placement then throws, the service logs the error at each
catch and `executeStrategy` swallows it — the trace carries no notification
push of any kind, exactly as in a cycle failing with an ordinary pre-entry
rejection (setLeverage), so the critical exposure is not escalated distinctly
from ordinary errors. -/
theorem claim_C3_bracket_failure_not_escalated :
    countEntryOrders (executeStrategy defaultConfig envBracketFail freshState).2 = 1 ∧
    Effect.logError LogSite.setTakeProfitStopLoss ∈
      (executeStrategy defaultConfig envBracketFail freshState).2 ∧
    (executeStrategy defaultConfig envBracketFail freshState).2.filter isAlert = [] ∧
    (executeStrategy defaultConfig envBracketFail freshState).2.getLast? =
      some (Effect.logError LogSite.executeStrategy) ∧
    (executeStrategy defaultConfig envLevFail freshState).2.filter isAlert = [] ∧
    (executeStrategy defaultConfig envLevFail freshState).2.getLast? =
      some (Effect.logError LogSite.executeStrategy) := by
  with_unfolding_all decide

end BinanceBot
